import Mathlib

/-!
A verification development for the enrollment-analytics engine:
shallow embedding of the data-reconciliation and metrics pipeline
(`data_loader.py`, `ntr_calculator.py`, `analytics.py`) and proofs of the
specified properties.

Python strings are modelled as `List Char`; `pd.isna` inputs are modelled
as `Option` (with `none` for NaN) where a function tests for NaN, and as
the empty string where the pipeline has already applied `safe_fillna`.
Numeric census fields that pass through `pd.to_numeric(...).fillna(0)` are
modelled as `ℤ` (the engine only compares, sums and multiplies them — no
division is performed on credits or rates, so integers model every value the
claims touch; the one true division in the code, the percentage-of-goal, is
modelled in `ℚ` over the integer totals).
-/

/-- Python strings are modelled as lists of characters. -/
abbrev Str := List Char

/-- Convert a Lean string literal to the model type. -/
def pystr (s : String) : Str := s.toList

/-- The whitespace characters recognised by Python's `str.strip`
(the ASCII ones occurring in this data). -/
def pyIsSpace (c : Char) : Bool :=
  c == ' ' || c == '\t' || c == '\n' || c == '\r' || c == '\x0b' || c == '\x0c'

/-- Python `str.lstrip()`. -/
def lstrip (l : Str) : Str := l.dropWhile pyIsSpace

/-- Python `str.rstrip()`. -/
def rstrip (l : Str) : Str := (l.reverse.dropWhile pyIsSpace).reverse

/-- Python `str.strip()`. -/
def strip (l : Str) : Str := rstrip (lstrip l)

/-- Lowercase an ASCII letter (Python `str.lower` on this data). -/
def lowerChar (c : Char) : Char :=
  if 'A' ≤ c ∧ c ≤ 'Z' then Char.ofNat (c.toNat + 32) else c

/-- Uppercase an ASCII letter (Python `str.upper` on this data). -/
def upperChar (c : Char) : Char :=
  if 'a' ≤ c ∧ c ≤ 'z' then Char.ofNat (c.toNat - 32) else c

/-- Python `str.lower()`. -/
def lower (l : Str) : Str := l.map lowerChar

/-- Python `str.upper()`. -/
def upper (l : Str) : Str := l.map upperChar

/-- Python `hay.startswith(needle)`. -/
def startsWithSub (hay needle : Str) : Bool := needle.isPrefixOf hay

/-- Helper for the substring test: does `needle` occur in the list? -/
def containsSubAux (needle : Str) : Str → Bool
  | [] => needle.isPrefixOf []
  | c :: cs => needle.isPrefixOf (c :: cs) || containsSubAux needle cs

/-- Python's `needle in hay` substring test. -/
def containsSub (hay needle : Str) : Bool := containsSubAux needle hay

/-- Fuel-indexed worker for `replaceSub`; the fuel bounds the number of
consumed characters so the recursion is structural. -/
def replaceSubAux (pat repl : Str) : Nat → Str → Str
  | 0, l => l
  | _ + 1, [] => []
  | fuel + 1, c :: cs =>
    if pat ≠ [] ∧ pat.isPrefixOf (c :: cs) then
      repl ++ replaceSubAux pat repl fuel (cs.drop (pat.length - 1))
    else
      c :: replaceSubAux pat repl fuel cs

/-- Python `s.replace(pat, repl)`: non-overlapping left-to-right replacement.
All call sites in the source pass a non-empty `pat`; for `pat = []` this
model leaves the string unchanged. -/
def replaceSub (pat repl l : Str) : Str := replaceSubAux pat repl l.length l

/-- Python `str.capitalize()`: first character uppercased, rest lowercased. -/
def capitalizeWord : Str → Str
  | [] => []
  | c :: cs => upperChar c :: lower cs

/-- Python `str.split()` (split on whitespace runs, dropping empties). -/
def splitWs (l : Str) : List Str :=
  (l.splitOnP pyIsSpace).filter (fun w => ¬ w.isEmpty)

/-- Python `str.title()`: uppercase every alphabetic character that follows a
non-alphabetic one, lowercase the others. -/
def titleAux : Bool → Str → Str
  | _, [] => []
  | prevAlpha, c :: cs =>
    (if prevAlpha then lowerChar c else upperChar c) :: titleAux c.isAlpha cs

/-- Python `str.title()` on the model type. -/
def titleCase (l : Str) : Str := titleAux false l

/-! ## `data_loader.py` — standardization functions -/

namespace DataLoader

/-- `standardize_program_name` (data_loader.py): remove extra text, lowercase,
then title-case.  `none` models a NaN input. -/
def standardize_program_name : Option Str → Str
  | none => []
  | some n =>
    let n1 := strip (lower n)
    let n2 := strip (replaceSub (pystr "(online)") [] n1)
    let n3 := strip (replaceSub (pystr "mba -") [] n2)
    let n4 := strip (replaceSub (pystr "(mba)") [] n3)
    titleCase n4

/-- The explicit school lookup table from `standardize_school_name`. -/
def school_mappings : List (Str × Str) :=
  [ (pystr "SOB", pystr "SSB")
  , (pystr "SES", pystr "SES")
  , (pystr "SSE", pystr "SES")
  , (pystr "", pystr "Dual Degree")
  , (pystr "DUAL DEGREE", pystr "Dual Degree")
  , (pystr "SCHOOL OF BUSINESS", pystr "SSB")
  , (pystr "SCHOOL OF ENGINEERING AND SCIENCE", pystr "SES")
  , (pystr "SCHOOL OF SYSTEMS AND ENTERPRISES", pystr "SES")
  , (pystr "CPE", pystr "CPE")
  , (pystr "CONTINUING AND PROFESSIONAL EDUCATION", pystr "CPE")
  , (pystr "PROFESSIONAL EDUCATION", pystr "CPE") ]

/-- Python `dict.get(k, default)` over an association list. -/
def dictGetD (m : List (Str × Str)) (k d : Str) : Str :=
  match m.find? (fun p => p.1 == k) with
  | some p => p.2
  | none => d

/-- `standardize_school_name` (data_loader.py): standardize to SSB, SES, CPE
or Dual Degree.  `none` models a NaN input. -/
def standardize_school_name : Option Str → Str
  | none => pystr "Dual Degree"
  | some n =>
    let name := strip (upper n)
    if name = [] ∨ containsSub name (pystr "DUAL") then pystr "Dual Degree"
    else if containsSub name (pystr "CPE") then pystr "CPE"
    else dictGetD school_mappings name name

/-- `standardize_degree_type` (data_loader.py). -/
def standardize_degree_type : Option Str → Str
  | none => []
  | some d =>
    let text := strip (lower d)
    if containsSub text (pystr "certificate") then pystr "Graduate Certificate"
    else if containsSub text (pystr "dual") then pystr "Dual Degree"
    else pystr "Masters"

/-- The ordered keyword table from `standardize_company_name`. -/
def company_mappings : List (Str × Str) :=
  [ (pystr "pfizer", pystr "Pfizer")
  , (pystr "collins", pystr "Collins Aerospace")
  , (pystr "bae", pystr "BAE Systems")
  , (pystr "bank of america", pystr "Bank of America")
  , (pystr "merrill lynch", pystr "Bank of America")
  , (pystr "l3", pystr "L3Harris")
  , (pystr "l3harris", pystr "L3Harris")
  , (pystr "astra", pystr "AstraZeneca")
  , (pystr "northrop", pystr "Northrop Grumman")
  , (pystr "ngc", pystr "Northrop Grumman")
  , (pystr "verizon", pystr "Verizon")
  , (pystr "jpmorgan", pystr "JPMorgan Chase")
  , (pystr "jp morgan", pystr "JPMorgan Chase")
  , (pystr "jpmc", pystr "JPMorgan Chase")
  , (pystr "lockheed", pystr "Lockheed Martin")
  , (pystr "boeing", pystr "Boeing")
  , (pystr "raytheon", pystr "Raytheon Technologies")
  , (pystr "rtx", pystr "Raytheon Technologies")
  , (pystr "navair", pystr "NAVAIR")
  , (pystr "us army", pystr "US Army")
  , (pystr "picatinny", pystr "US Army")
  , (pystr "devcom", pystr "US Army") ]

/-- `standardize_company_name` (data_loader.py): first keyword match wins,
otherwise capitalize each word.  `none` models a NaN input. -/
def standardize_company_name : Option Str → Str
  | none => []
  | some n =>
    if strip n = [] then []
    else
      let original := strip (lower n)
      match company_mappings.find? (fun p => containsSub original p.1) with
      | some p => p.2
      | none => List.intercalate (pystr " ") ((splitWs original).map capitalizeWord)

/-- `CPE_PROGRAM_KEYWORDS` (data_loader.py). -/
def CPE_PROGRAM_KEYWORDS : List Str :=
  [ pystr "applied data science"
  , pystr "meads"
  , pystr "enterprise ai"
  , pystr "enterprise artificial intelligence"
  , pystr "ads foundations"
  , pystr "applied data science foundations" ]

/-- `is_cpe_program` (data_loader.py): empty (falsy) program name is not CPE. -/
def is_cpe_program (program_name : Str) : Bool :=
  if program_name = [] then false
  else CPE_PROGRAM_KEYWORDS.any (fun k => containsSub (strip (lower program_name)) k)

end DataLoader

/-! ## `data_loader.py` — ASAP decision flags and the application classifier -/

namespace DataLoader

/-- `_normalize_asap_decision` (data_loader.py).  The input is `str(val or '')`,
so a missing value is the empty string. -/
def normalize_asap_decision (val : Str) : Str :=
  let s0 := lower (strip val)
  let s1 := if startsWithSub s0 (pystr "-") then strip (s0.drop 1) else s0
  replaceSub (pystr "asap_approved") (pystr "asap approved")
    (replaceSub (pystr "asap approved") (pystr "asap approved") s1)

/-- `_asap_flags` (data_loader.py): (is_submit_app, admitted, offer_accepted,
offer_declined). -/
def asap_flags (decision_last_name_raw : Str) : Bool × Bool × Bool × Bool :=
  let s := normalize_asap_decision decision_last_name_raw
  let is_submit := (strip s).length > 0
  let admitted := containsSub s (pystr "asap approved")
    || (containsSub s (pystr "approved") && containsSub s (pystr "asap"))
  let offer_acc := containsSub s (pystr "accept") && containsSub s (pystr "asap approved")
  let offer_dec := containsSub s (pystr "decline") && containsSub s (pystr "asap approved")
  (is_submit, admitted, offer_acc, offer_dec)

/-- One application row as read by `reclassify_app_tags`.  Each field is the
raw column value with NaN / missing column already collapsed to the empty
string (`row.get(col, '')` plus `get_single_value`). -/
structure AppRow where
  dataSource : Str        -- 'Data Source'
  schoolApplied : Str     -- 'School Applied for'
  degreeInterest : Str    -- 'Degree of Interest (app)'
  program : Str           -- 'Area of Study - Value'
  appTags : Str           -- 'App Tags'
  employer : Str          -- 'If Yes, Name of Sponsoring Employer'
  corporateSponsor : Str  -- 'Corporate Sponsor'
  noodleException : Str   -- 'Noodle Exception'
  specialProgram : Str    -- 'Special Program'
deriving DecidableEq, Repr

/-- `reclassify_app_tags` (data_loader.py): the ordered application-category
cascade, first match wins. -/
def reclassify_app_tags (row : AppRow) : Str :=
  if row.dataSource = pystr "ASAP" then pystr "ASAP"
  else
    let school_upper := strip (upper row.schoolApplied)
    if containsSub school_upper (pystr "CPE") then pystr "CPE"
    else if is_cpe_program row.program then pystr "CPE"
    else if (row.schoolApplied = [] ∨ school_upper = []) ∧
        strip row.degreeInterest ≠ pystr "Dual Degree" then pystr "CPE"
    else
      let tag := row.appTags
      let noodle_exception := lower row.noodleException
      if tag = [] ∨ containsSub tag (pystr "EDD") then pystr "Stevens Online (Retail)"
      else if strip row.specialProgram ≠ [] then pystr "Special Program"
      else if containsSub tag (pystr "Noodle") ∧
          (noodle_exception = [] ∨ ¬ containsSub noodle_exception (pystr "exclude")) then
        pystr "Select Professional Online"
      else if containsSub tag (pystr "Beacon") then pystr "Beacon"
      else if containsSub tag (pystr "Corporate") ∨ strip row.employer ≠ [] ∨
          strip row.corporateSponsor ≠ [] then pystr "Stevens Online (Corporate)"
      else pystr "Stevens Online (Retail)"

/-- The seven values `reclassify_app_tags` can produce. -/
def applicationCategories : List Str :=
  [ pystr "ASAP", pystr "CPE", pystr "Stevens Online (Retail)", pystr "Special Program"
  , pystr "Select Professional Online", pystr "Beacon", pystr "Stevens Online (Corporate)" ]

end DataLoader

/-! ## `data_loader.py` — enrollment-date derivation -/

namespace DataLoader

/-- The 3-year rolling window of valid reporting years (`valid_years`). -/
def valid_years : List Int := [2024, 2025, 2026]

/-- One cell of a Date-of-Enrollment column.  `isNA` models `pd.isna(date_val)`,
`raw` models `str(date_val)`, and `parsedYear` models the year of
`pd.to_datetime(date_val, errors='coerce')` with `none` for `NaT`
(unparseable input); the pandas date parser itself is abstracted as this
per-cell parse result. -/
structure DateCell where
  isNA : Bool
  raw : Str
  parsedYear : Option Int
deriving DecidableEq, Repr

/-- One cell of a Term-of-Enrollment column (`isNA` models `pd.isna x`,
`raw` models `str x`). -/
structure TermCell where
  isNA : Bool
  raw : Str
deriving DecidableEq, Repr

/-- `get_yoy_status` (inner function of `derive_yoy_status_from_enrollment_date`). -/
def get_yoy_status (date_val : DateCell) : Str :=
  if date_val.isNA ∨ strip date_val.raw = [] then pystr "no"
  else
    match date_val.parsedYear with
    | none => pystr "no"
    | some y => if y ∈ valid_years then pystr "yes" else pystr "no"

/-- The Term-of-Enrollment lambda in `derive_yoy_status_from_enrollment_date`. -/
def toe_status (x : TermCell) : Str :=
  if ¬ x.isNA ∧ valid_years.any (fun y => containsSub x.raw (pystr (toString y))) then
    pystr "yes"
  else pystr "no"

/-- One row of a population table for YOY-status derivation, carrying the
contents of both possible enrollment columns. -/
structure PopRow where
  doe : DateCell
  toe : TermCell
deriving DecidableEq, Repr

/-- `derive_yoy_status_from_enrollment_date` (data_loader.py).  `hasDoe` and
`hasToe` model the presence of the (case-insensitively matched) 'Date of
Enrollment' / 'Term of Enrollment' columns.  The first output is the derived
'YOY Status' column; the second output is `true` exactly when the code takes
the no-enrollment-column branch and prints its WARNING (the printed warning is
modelled as this flag). -/
def derive_yoy_status_from_enrollment_date (hasDoe hasToe : Bool) (rows : List PopRow) :
    List Str × Bool :=
  if hasDoe then
    (rows.map (fun r => get_yoy_status r.doe), false)
  else if hasToe then
    (rows.map (fun r => toe_status r.toe), false)
  else
    (rows.map (fun _ => pystr "no"), true)

end DataLoader

/-! ## Census rows and `data_loader.py` census loading -/

/-- One row of the census feed, restricted to the columns the engine reads.
`beacon`, `credits` and `prevSummerNew` have already passed through
`pd.to_numeric(...).fillna(0)` and are modelled as `ℚ`.  String fields are
the raw column values (missing ⇒ empty string).  `corporateCohort` is the
corporate-cohort column of the feed; the engine never reads it. -/
structure CensusRow where
  semester : Str        -- Census_1_SEMESTER
  location : Str        -- Census_1_STUDENT_LOCATION_DETAILED
  degreeType : Str      -- Census_1_DEGREE_TYPE
  corporate : Str       -- Census_1_CORPORATE_STUDENT
  corporateCohort : Str -- corporate cohort column (unread by the engine)
  beacon : ℤ            -- Census_1_BEACON_FLAG
  studentId : Str       -- Census_1_STUDENT_ID
  status : Str          -- Census_1_STUDENT_STATUS
  credits : ℤ           -- Census_1_CENSUS3_TOTAL_NUMBER_OF_CREDIT_HOURS
  prevSummerNew : ℤ     -- Census_1_ENROLLED_IN_PREVIOUS_SUMMER_SEMESTER_AS_NEW
  program : Str         -- Census_1_PRIMARY_PROGRAM_OF_STUDY
  school : Str          -- Census_1_SCHOOL
deriving DecidableEq, Repr

namespace DataLoader

/-- `_categorize_census_row` (data_loader.py): census category mapping used by
the census loader.  Each string field is read via `str(row.get(...)).strip()`. -/
def categorize_census_row (row : CensusRow) : Str :=
  let degree_type := strip row.degreeType
  let location := strip row.location
  let corporate_flag := strip row.corporate
  let beacon_flag := row.beacon
  if degree_type = pystr "Non-Degree" then pystr "ASAP"
  else if location = pystr "Online Noodle" then pystr "Select Professional Online"
  else if beacon_flag = 1 then pystr "Beacon"
  else if location = pystr "Online" ∧ corporate_flag = pystr "Corporate" then pystr "Corporate"
  else if location = pystr "Online" then pystr "Retail"
  else pystr "Uncategorized"

/-- The semester / location / degree-type filter applied by `load_census_data`
(and `_load_census_from_bytes`). -/
def censusFilter (semester : Str) (rows : List CensusRow) : List CensusRow :=
  ((rows.filter (fun r => r.semester == semester)).filter
      (fun r => r.location == pystr "Online" || r.location == pystr "Online Noodle")).filter
    (fun r => r.degreeType == pystr "Masters" || r.degreeType == pystr "Graduate Certificate"
      || r.degreeType == pystr "Non-Degree")

/-- The aggregate dictionary built by `load_census_data`, restricted to the
numeric keys the engine consumes ('total', 'new', 'continuing', 'returning',
'total_credits'; the file name, raw frame and 'by_category' dict are carried
unchanged and not modelled). -/
structure CensusSummary where
  total : Nat
  new : Nat
  continuing : Nat
  returning : Nat
  total_credits : ℤ
deriving DecidableEq, Repr

/-- `load_census_data` (data_loader.py), counting core: filter the census,
then report `nunique` student IDs as 'total' and per-status row counts.
Returns `none` for the `{}` result on an empty filtered frame. -/
def load_census_data (semester : Str) (rows : List CensusRow) : Option CensusSummary :=
  let df := censusFilter semester rows
  if df = [] then none
  else
    some
      { total := ((df.map (fun r => r.studentId)).dedup).length
      , new := (df.filter (fun r => r.status == pystr "New")).length
      , continuing := (df.filter (fun r => r.status == pystr "Continuing")).length
      , returning := (df.filter (fun r => r.status == pystr "Returning")).length
      , total_credits := (df.map (fun r => r.credits)).sum }

end DataLoader

/-! ## `data_loader.py` — ASAP population transformation -/

namespace DataLoader

/-- One raw application row, restricted to the columns the transformation
reads.  `safe_fillna` has already collapsed NaN to the empty string. -/
structure RawRow where
  round : Str             -- 'Round'
  degreeInterest : Str    -- 'Degree of Interest (app)'
  employerName : Str      -- 'If Yes, Name of Sponsoring Employer'
  schoolApplied : Str     -- 'School Applied for'
  areaOfStudy : Str       -- 'Area of Study - Value'
  decisionLastName : Str  -- 'Decision Last Name'
  yoyStatus : Str         -- 'YOY Status'
  bin : Str               -- 'Bin'
  appTags : Str           -- 'App Tags'
  corporateSponsor : Str  -- 'Corporate Sponsor'
  noodleException : Str   -- 'Noodle Exception'
  specialProgram : Str    -- 'Special Program'
deriving DecidableEq, Repr

/-- One transformed application row (the columns added by
`transform_application_data`, plus the raw columns it carries along). -/
structure TransRow where
  raw : RawRow
  season : Str
  dataSource : Str
  degreeType : Str          -- 'Degree Type'
  sponsoringCompany : Str   -- 'Sponsoring Company'
  school : Str              -- 'School (Expanded)'
  programCleaned : Str      -- 'Program Cleaned'
  isApplication : Nat       -- 'Is Application'
  admitStatus : Str         -- 'Admit Status'
  offerAccepted : Str       -- 'Offer Accepted'
  offerDeclined : Str       -- 'Offer Declined'
  enrolled : Str            -- 'Enrolled'
  applicationCategory : Str -- 'Application Category'
deriving DecidableEq, Repr

/-- Season inference from the 'Round' column (case-insensitive contains,
table level). -/
def inferSeason (rows : List RawRow) : Str :=
  if rows.any (fun r => containsSub (lower r.round) (pystr "fall")) then pystr "Fall"
  else if rows.any (fun r => containsSub (lower r.round) (pystr "summer")) then pystr "Summer"
  else if rows.any (fun r => containsSub (lower r.round) (pystr "spring")) then pystr "Spring"
  else pystr "Unknown"

/-- `professional_cert_programs` (transform_application_data). -/
def professional_cert_programs : List Str :=
  [ pystr "Systems Engineering Foundations"
  , pystr "Enterprise Ai"
  , pystr "Applied Data Science Foundations" ]

/-- The ASAP-branch column default: if the whole 'School Applied for' column is
blank, set it to 'SES' (the column always exists in this model). -/
def asapOverrideSchoolApplied (rows : List RawRow) : List RawRow :=
  if rows.all (fun r => r.schoolApplied == ([] : Str)) then
    rows.map (fun r => { r with schoolApplied := pystr "SES" })
  else rows

/-- The view of a transformed row that `reclassify_app_tags` reads. -/
def appRowOfTrans (t : TransRow) : AppRow :=
  { dataSource := t.dataSource
  , schoolApplied := t.raw.schoolApplied
  , degreeInterest := t.raw.degreeInterest
  , program := t.raw.areaOfStudy
  , appTags := t.raw.appTags
  , employer := t.raw.employerName
  , corporateSponsor := t.raw.corporateSponsor
  , noodleException := t.raw.noodleException
  , specialProgram := t.raw.specialProgram }

/-- Per-row body of the ASAP branch of `transform_application_data`: field
standardization, the professional-certificate and dual-degree overrides, then
the unconditional ASAP overrides and the ASAP decision flags. -/
def transformRowAsap (season : Str) (r : RawRow) : TransRow :=
  let degreeType0 := standardize_degree_type (some r.degreeInterest)
  let sponsoring := standardize_company_name (some r.employerName)
  let school0 := standardize_school_name (some r.schoolApplied)
  let programCleaned := standardize_program_name (some r.areaOfStudy)
  let degreeType1 :=
    if professional_cert_programs.any
        (fun p => containsSub (lower programCleaned) (lower p)) then
      pystr "Professional Graduate Certificate"
    else degreeType0
  let _school1 := if degreeType1 = pystr "Dual Degree" then pystr "Dual Degree" else school0
  -- ASAP branch: the 'Degree Type' and 'School (Expanded)' columns just
  -- computed are overwritten wholesale, discarding `degreeType1`/`_school1`
  let degreeType2 := pystr "Masters"
  let school2 := pystr "SES"
  let f := asap_flags r.decisionLastName
  { raw := r
  , season := season
  , dataSource := pystr "ASAP"
  , degreeType := degreeType2
  , sponsoringCompany := sponsoring
  , school := school2
  , programCleaned := programCleaned
  , isApplication := if f.1 then 1 else 0
  , admitStatus := if f.2.1 then pystr "admitted" else pystr "not admitted"
  , offerAccepted := if f.2.2.1 then pystr "yes" else []
  , offerDeclined := if f.2.2.2 then pystr "yes" else []
  , enrolled := if strip (lower r.yoyStatus) = pystr "yes" then pystr "yes" else []
  , applicationCategory := [] }

/-- `transform_application_data` (data_loader.py) for `source='ASAP'`:
season inference, per-row transformation, the filter to valid ASAP
applications (`Is Application == 1`), then the application category. -/
def transform_application_data_asap (rows0 : List RawRow) : List TransRow :=
  let season := inferSeason rows0
  let rows := asapOverrideSchoolApplied rows0
  let pre := rows.map (transformRowAsap season)
  let filtered := pre.filter (fun t => t.isApplication == 1)
  filtered.map (fun t => { t with applicationCategory := reclassify_app_tags (appRowOfTrans t) })

end DataLoader

/-! ## `ntr_calculator.py` — rates, classification and the NTR engine -/

namespace NTRCalc

/-- `CPC_RATES` (ntr_calculator.py): cost-per-credit by
(Student Category, Degree Type, Student Type). -/
def CPC_RATES : List ((Str × Str × Str) × ℤ) :=
  [ ((pystr "Select Professional Online", pystr "Masters", pystr "New"), 1395)
  , ((pystr "Select Professional Online", pystr "Masters", pystr "Current"), 1650)
  , ((pystr "Beacon", pystr "Masters", pystr "New"), 290)
  , ((pystr "Beacon", pystr "Masters", pystr "Current"), 290)
  , ((pystr "Stevens Online (Corporate)", pystr "Masters", pystr "New"), 1300)
  , ((pystr "Stevens Online (Corporate)", pystr "Masters", pystr "Current"), 1550)
  , ((pystr "Stevens Online (Corporate)", pystr "Graduate Certificate", pystr "New"), 1195)
  , ((pystr "Stevens Online (Corporate)", pystr "Graduate Certificate", pystr "Current"), 1195)
  , ((pystr "Stevens Online (Retail)", pystr "Masters", pystr "New"), 1395)
  , ((pystr "Stevens Online (Retail)", pystr "Masters", pystr "Current"), 1723)
  , ((pystr "Stevens Online (Retail)", pystr "Graduate Certificate", pystr "New"), 1993)
  , ((pystr "Stevens Online (Retail)", pystr "Graduate Certificate", pystr "Current"), 2030)
  , ((pystr "ASAP", pystr "Non-Degree", pystr "New"), 875)
  , ((pystr "ASAP", pystr "Non-Degree", pystr "Current"), 875)
  , ((pystr "Corporate", pystr "Masters", pystr "New"), 1300)
  , ((pystr "Corporate", pystr "Masters", pystr "Current"), 1550)
  , ((pystr "Corporate", pystr "Graduate Certificate", pystr "New"), 1195)
  , ((pystr "Corporate", pystr "Graduate Certificate", pystr "Current"), 1195)
  , ((pystr "Retail", pystr "Masters", pystr "New"), 1395)
  , ((pystr "Retail", pystr "Masters", pystr "Current"), 1723)
  , ((pystr "Retail", pystr "Graduate Certificate", pystr "New"), 1993)
  , ((pystr "Retail", pystr "Graduate Certificate", pystr "Current"), 2030)
  , ((pystr "CPE", pystr "Masters", pystr "New"), 800)
  , ((pystr "CPE", pystr "Masters", pystr "Current"), 800)
  , ((pystr "CPE", pystr "Graduate Certificate", pystr "New"), 583)
  , ((pystr "CPE", pystr "Graduate Certificate", pystr "Current"), 583)
  , ((pystr "CPE", pystr "Professional Graduate Certificate", pystr "New"), 583)
  , ((pystr "CPE", pystr "Professional Graduate Certificate", pystr "Current"), 583) ]

/-- Python `key in CPC_RATES` / `CPC_RATES[key]` as an association-list lookup. -/
def ratesLookup (k : Str × Str × Str) : Option ℤ :=
  (CPC_RATES.find? (fun p => p.1 == k)).map (fun p => p.2)

/-- `CPE_PROGRAMS` masters keyword list (ntr_calculator.py). -/
def CPE_PROGRAMS_masters : List Str :=
  [ pystr "applied data science"
  , pystr "meads"
  , pystr "master of engineering in applied data science"
  , pystr "me in applied data science" ]

/-- `CPE_PROGRAMS` graduate-certificate keyword list (ntr_calculator.py). -/
def CPE_PROGRAMS_graduate_certificate : List Str :=
  [ pystr "enterprise ai"
  , pystr "enterprise artificial intelligence"
  , pystr "professional graduate certificate in enterprise ai"
  , pystr "applied data science foundations"
  , pystr "ads foundations"
  , pystr "professional graduate certificate in applied data science foundations"
  , pystr "systems engineering foundations" ]

/-- `CPE_SCHOOL_KEYWORDS` (ntr_calculator.py). -/
def CPE_SCHOOL_KEYWORDS : List Str :=
  [ pystr "cpe"
  , pystr "college of professional education"
  , pystr "professional education" ]

/-- `DEFAULT_NTR_GOAL` (ntr_calculator.py). -/
def DEFAULT_NTR_GOAL : ℤ := 9800000

/-- `is_cpe_program` (ntr_calculator.py): masters keywords, then certificate
keywords; empty (falsy) name is not CPE. -/
def is_cpe_program (program_name : Str) : Bool :=
  if program_name = [] then false
  else
    let program_lower := strip (lower program_name)
    CPE_PROGRAMS_masters.any (fun k => containsSub program_lower k)
      || CPE_PROGRAMS_graduate_certificate.any (fun k => containsSub program_lower k)

/-- `is_cpe_school` (ntr_calculator.py). -/
def is_cpe_school (school_name : Str) : Bool :=
  if school_name = [] then false
  else CPE_SCHOOL_KEYWORDS.any (fun k => containsSub (strip (lower school_name)) k)

/-- `classify_student_type` (ntr_calculator.py): 'New', 'Current' or the
'Uncategorized' sentinel. -/
def classify_student_type (row : CensusRow) : Str :=
  if row.status = pystr "Continuing" ∨ row.status = pystr "Returning" then pystr "Current"
  else if row.status = pystr "New" then
    if row.prevSummerNew = 1 then pystr "Current" else pystr "New"
  else pystr "Uncategorized"

/-- `classify_student_category` (ntr_calculator.py): the census-side category
cascade used by the NTR engine (fields read raw, without stripping). -/
def classify_student_category (row : CensusRow) : Str :=
  if is_cpe_program row.program || is_cpe_school row.school then pystr "CPE"
  else if row.degreeType = pystr "Non-Degree" ∧
      (row.location = pystr "Online" ∨ row.location = pystr "Online Noodle") then pystr "ASAP"
  else if row.location = pystr "Online Noodle" then pystr "Select Professional Online"
  else if row.beacon = 1 then pystr "Beacon"
  else if row.location = pystr "Online" ∧ row.corporate = pystr "Corporate" ∧
      row.beacon = 0 then pystr "Corporate"
  else if row.location = pystr "Online" ∧ row.corporate = pystr "Non-Corporate" ∧
      row.beacon = 0 then pystr "Retail"
  else pystr "Uncategorized"

/-- The category with the 'Stevens Online (' prefix and ')' removed
(the `short_category` computed inside `get_cpc_rate`). -/
def short_category_of (category : Str) : Str :=
  replaceSub (pystr ")") [] (replaceSub (pystr "Stevens Online (") [] category)

/-- `get_cpc_rate` (ntr_calculator.py): exact lookup, then retry with the
'Stevens Online (…)' prefix removed, else 0. -/
def get_cpc_rate (category degree_type student_type : Str) : ℤ :=
  match ratesLookup (category, degree_type, student_type) with
  | some r => r
  | none =>
    if startsWithSub category (pystr "Stevens Online") then
      match ratesLookup (short_category_of category, degree_type, student_type) with
      | some r => r
      | none => 0
    else 0

end NTRCalc

namespace NTRCalc

/-- `CategoryNTR` (ntr_calculator.py). -/
structure CategoryNTR where
  category : Str
  degree_type : Str
  new_students : Nat
  current_students : Nat
  total_students : Nat
  new_credits : ℤ
  current_credits : ℤ
  total_credits : ℤ
  cpc_new : ℤ
  cpc_current : ℤ
  ntr_new : ℤ
  ntr_current : ℤ
  total_ntr : ℤ
deriving DecidableEq, Repr

/-- `NTRSummary` (ntr_calculator.py). -/
structure NTRSummary where
  total_ntr : ℤ
  ntr_goal : ℤ
  percentage_of_goal : ℚ
  gap_to_goal : ℤ
  total_students : Nat
  total_credits : ℤ
  new_students : Nat
  current_students : Nat
  new_credits : ℤ
  current_credits : ℤ
  new_ntr : ℤ
  current_ntr : ℤ
deriving DecidableEq, Repr

/-- `valid_categories` (calculate_ntr_from_census). -/
def valid_categories : List Str :=
  [ pystr "ASAP", pystr "Select Professional Online", pystr "Beacon", pystr "Corporate"
  , pystr "Retail", pystr "CPE" ]

/-- `valid_degrees` (calculate_ntr_from_census). -/
def valid_degrees : List Str :=
  [ pystr "Masters", pystr "Graduate Certificate", pystr "Non-Degree"
  , pystr "Professional Graduate Certificate" ]

/-- The filtering stage of `calculate_ntr_from_census`: semester filter, then
the valid-category / valid-degree filter (classification is recomputed per
row by the pure classifiers). -/
def ntrFilter (semester : Str) (rows : List CensusRow) : List CensusRow :=
  (rows.filter (fun r => r.semester == semester)).filter
    (fun r => valid_categories.contains (classify_student_category r)
      && valid_degrees.contains r.degreeType)

/-- The grouping key (Student_Category, Census_1_DEGREE_TYPE) of a row. -/
def groupKey (r : CensusRow) : Str × Str := (classify_student_category r, r.degreeType)

/-- The pivot index of `calculate_ntr_from_census`: every (category, degree
type) pair occurring in the filtered frame (pandas sorts the index; the order
is immaterial to every property proved here, so first-occurrence order is
used). -/
def groupKeys (df : List CensusRow) : List (Str × Str) := (df.map groupKey).dedup

/-- The credits-pivot cell: total credits of the rows in group `k` whose
student type is `st` (0 when the pivot has no such column or row, matching
`fill_value=0` and the missing-column default). -/
def groupCredits (df : List CensusRow) (k : Str × Str) (st : Str) : ℤ :=
  ((df.filter (fun r => groupKey r == k && classify_student_type r == st)).map
    (fun r => r.credits)).sum

/-- The students-pivot cell: `nunique` student IDs of the rows in group `k`
whose student type is `st`. -/
def groupStudents (df : List CensusRow) (k : Str × Str) (st : Str) : Nat :=
  (((df.filter (fun r => groupKey r == k && classify_student_type r == st)).map
    (fun r => r.studentId)).dedup).length

/-- The `CategoryNTR` record built for one (category, degree type) group in
the loop of `calculate_ntr_from_census`. -/
def categoryNTROf (df : List CensusRow) (k : Str × Str) : CategoryNTR :=
  let new_students := groupStudents df k (pystr "New")
  let current_students := groupStudents df k (pystr "Current")
  let new_credits := groupCredits df k (pystr "New")
  let current_credits := groupCredits df k (pystr "Current")
  let cpc_new := get_cpc_rate k.1 k.2 (pystr "New")
  let cpc_current := get_cpc_rate k.1 k.2 (pystr "Current")
  let ntr_new := new_credits * cpc_new
  let ntr_current := current_credits * cpc_current
  { category := k.1
  , degree_type := k.2
  , new_students := new_students
  , current_students := current_students
  , total_students := new_students + current_students
  , new_credits := new_credits
  , current_credits := current_credits
  , total_credits := new_credits + current_credits
  , cpc_new := cpc_new
  , cpc_current := cpc_current
  , ntr_new := ntr_new
  , ntr_current := ntr_current
  , total_ntr := ntr_new + ntr_current }

/-- The per-category breakdown list built by `calculate_ntr_from_census`. -/
def calculate_ntr_breakdown (semester : Str) (rows : List CensusRow) : List CategoryNTR :=
  let df := ntrFilter semester rows
  (groupKeys df).map (categoryNTROf df)

/-- The `NTRSummary` accumulated over the breakdown by
`calculate_ntr_from_census`. -/
def summaryOf (ntr_goal : ℤ) (breakdown : List CategoryNTR) : NTRSummary :=
  let total_ntr := (breakdown.map (fun c => c.total_ntr)).sum
  { total_ntr := total_ntr
  , ntr_goal := ntr_goal
  , percentage_of_goal := if ntr_goal > 0 then (total_ntr : ℚ) / (ntr_goal : ℚ) * 100 else 0
  , gap_to_goal := ntr_goal - total_ntr
  , total_students := (breakdown.map (fun c => c.total_students)).sum
  , total_credits := (breakdown.map (fun c => c.total_credits)).sum
  , new_students := (breakdown.map (fun c => c.new_students)).sum
  , current_students := (breakdown.map (fun c => c.current_students)).sum
  , new_credits := (breakdown.map (fun c => c.new_credits)).sum
  , current_credits := (breakdown.map (fun c => c.current_credits)).sum
  , new_ntr := (breakdown.map (fun c => c.ntr_new)).sum
  , current_ntr := (breakdown.map (fun c => c.ntr_current)).sum }

/-- `calculate_ntr_from_census` (ntr_calculator.py): the summary and the
per-category breakdown (`none` models the `(None, [], …)` result for an
empty input or empty filtered frame; the detailed DataFrame is a
re-rendering of the same breakdown list and is not modelled separately). -/
def calculate_ntr_from_census (semester : Str) (ntr_goal : ℤ) (rows : List CensusRow) :
    Option (NTRSummary × List CategoryNTR) :=
  if rows = [] then none
  else
    let df := ntrFilter semester rows
    if df = [] then none
    else
      let breakdown := calculate_ntr_breakdown semester rows
      some (summaryOf ntr_goal breakdown, breakdown)

/-- Follows the spec's words (§7, "Unmapped rate-table key"): the list of
(category, degree, studentType) combinations observed in the filtered census
data but absent from the rate table.  This definition exists only to be
compared with what `calculate_ntr_from_census` actually returns. -/
def specGapList (semester : Str) (rows : List CensusRow) : List (Str × Str × Str) :=
  (((ntrFilter semester rows).map
      (fun r => (classify_student_category r, r.degreeType, classify_student_type r))).dedup).filter
    (fun k => (ratesLookup k).isNone)

end NTRCalc

/-! ## `analytics.py` — funnel metrics and the reconciled breakdown -/

namespace Analytics

/-- `FunnelMetrics` (analytics.py), stored fields only (the rate properties
are computed on read). -/
structure FunnelMetrics where
  year : Int
  applications : Nat
  admits : Nat
  offers_accepted : Nat
  enrollments : Nat
deriving DecidableEq, Repr

/-- `calculate_funnel_metrics` (analytics.py) over transformed rows: sum of
'Is Application', and counts of 'Admit Status' == 'admitted',
'Offer Accepted' == 'yes', 'Enrolled' == 'yes'. -/
def calculate_funnel_metrics (df : List DataLoader.TransRow) (year : Int) : FunnelMetrics :=
  { year := year
  , applications := (df.map (fun r => r.isApplication)).sum
  , admits := (df.filter (fun r => r.admitStatus == pystr "admitted")).length
  , offers_accepted := (df.filter (fun r => r.offerAccepted == pystr "yes")).length
  , enrollments := (df.filter (fun r => r.enrolled == pystr "yes")).length }

/-- `EnrollmentBreakdown` (analytics.py). -/
structure EnrollmentBreakdown where
  slate_new : Nat
  census_new : Nat
  continuing : Nat
  returning : Nat
deriving DecidableEq, Repr

/-- `EnrollmentBreakdown.total` (analytics.py): Slate new plus census
continuing/returning. -/
def EnrollmentBreakdown.total (b : EnrollmentBreakdown) : Nat :=
  b.slate_new + b.continuing + b.returning

/-- The `summary['enrollment_breakdown']` construction inside
`calculate_summary_stats` (analytics.py): `slate_new` is the current-year
funnel enrollments, the census counts come from the optional census
dictionary with default 0. -/
def summaryEnrollmentBreakdown (current_df : List DataLoader.TransRow)
    (census_enrollments : Option DataLoader.CensusSummary) : EnrollmentBreakdown :=
  let current_metrics := calculate_funnel_metrics current_df 2026
  let census_new := match census_enrollments with
    | some c => c.new
    | none => 0
  let continuing := match census_enrollments with
    | some c => c.continuing
    | none => 0
  let returning := match census_enrollments with
    | some c => c.returning
    | none => 0
  { slate_new := current_metrics.enrollments
  , census_new := census_new
  , continuing := continuing
  , returning := returning }

end Analytics

/-! ## Fixture data for witnesses and counterexamples -/

/-- A census row: generic online, corporate flag set, blank corporate cohort. -/
def corpBlankCohortRow : CensusRow :=
  ⟨pystr "2026S", pystr "Online", pystr "Masters", pystr "Corporate", [], 0, pystr "S1",
    pystr "New", 9, 0, [], []⟩

/-- A census row: generic online, blank corporate flag. -/
def onlineBlankFlagRow : CensusRow :=
  ⟨pystr "2026S", pystr "Online", pystr "Masters", [], [], 0, pystr "S2",
    pystr "New", 6, 0, [], []⟩

/-- A census row: on-campus location, matching no categorization rule. -/
def campusRow : CensusRow :=
  ⟨pystr "2026S", pystr "Campus", pystr "Masters", [], [], 0, pystr "S3",
    pystr "New", 6, 0, [], []⟩

/-- A census row whose (category, degree type, student type) triple —
(Beacon, Graduate Certificate, New) — is absent from the rate table. -/
def beaconCertRow : CensusRow :=
  ⟨pystr "2026S", pystr "Online", pystr "Graduate Certificate", [], [], 1, pystr "S4",
    pystr "New", 3, 0, [], []⟩

/-- A one-row census exhibiting an unmapped rate-table combination. -/
def gapRows : List CensusRow := [beaconCertRow]

/-- The breakdown group produced for `gapRows`: the unmapped combination
appears with a zero rate and zero NTR. -/
def gapGroupRecord : NTRCalc.CategoryNTR :=
  ⟨pystr "Beacon", pystr "Graduate Certificate", 1, 0, 1, 3, 0, 3, 0, 0, 0, 0, 0⟩

/-- A census row with student status 'New' (used for duplication tests). -/
def newStatusRow : CensusRow :=
  ⟨pystr "2026S", pystr "Online", pystr "Masters", pystr "Non-Corporate", [], 0, pystr "S9",
    pystr "New", 9, 0, [], []⟩

/-- A census row with a student status outside {New, Continuing, Returning}. -/
def withdrawnRow : CensusRow :=
  ⟨pystr "2026S", pystr "Online", pystr "Masters", pystr "Non-Corporate", [], 0, pystr "S7",
    pystr "Withdrawn", 12, 0, [], []⟩

/-- An application row whose App Tags satisfy both the rule-5 condition
(contains 'EDD') and the rule-7 condition (contains 'Noodle', no exclusion). -/
def eddNoodleRow : DataLoader.AppRow :=
  ⟨pystr "MAIN", pystr "SSB", [], [], pystr "EDD Noodle", [], [], [], []⟩

/-- Five raw Secondary (ASAP) rows, two of which have a blank decision field. -/
def asapScenarioRows : List DataLoader.RawRow :=
  [ ⟨pystr "2026 Spring Graduate", [], [], pystr "SES", [], pystr "ASAP Approved",
      pystr "yes", [], [], [], [], []⟩
  , ⟨pystr "2026 Spring Graduate", [], [], pystr "SES", [], pystr "-ASAP Approved - Accepted",
      [], [], [], [], [], []⟩
  , ⟨pystr "2026 Spring Graduate", [], [], pystr "SES", [], pystr "Denied",
      [], [], [], [], [], []⟩
  , ⟨pystr "2026 Spring Graduate", [], [], pystr "SES", [], [],
      [], [], [], [], [], []⟩
  , ⟨pystr "2026 Spring Graduate", [], [], pystr "SES", [], pystr "  ",
      [], [], [], [], [], []⟩ ]

/-! ## Claim theorems -/

/-- C1: the reconciled enrollment breakdown's `total` always equals
`slate_new` (the current-year pipeline enrollment count) plus `continuing`
plus `returning`; the census 'new' count stored in the structure is never
included in the total (the total computed by `calculate_summary_stats` does
not mention it); with pipeline enrollments 120, census new 150, continuing 40,
returning 10 the total is 170. -/
theorem c1_enrollment_total :
    (∀ b : Analytics.EnrollmentBreakdown,
        b.total = b.slate_new + b.continuing + b.returning)
    ∧ (∀ (df : List DataLoader.TransRow) (c : DataLoader.CensusSummary),
        (Analytics.summaryEnrollmentBreakdown df (some c)).total
          = (Analytics.calculate_funnel_metrics df 2026).enrollments + c.continuing + c.returning)
    ∧ (Analytics.EnrollmentBreakdown.mk 120 150 40 10).total = 170 :=
  ⟨fun _ => rfl, fun _ _ => rfl, rfl⟩

/-- C8 counterexample: the input "DUAL CPE" contains both the dual-degree
marker and the continuing-education marker, yet `standardize_school_name`
returns 'Dual Degree', not the continuing-education canonical value 'CPE' —
so the CPE-marker check is NOT applied before the dual-degree check. -/
theorem c8_school_order_counterexample :
    DataLoader.standardize_school_name (some (pystr "DUAL CPE")) = pystr "Dual Degree"
      ∧ pystr "Dual Degree" ≠ pystr "CPE" := by decide

/-- C8 (amended): the empty/dual-degree check is applied BEFORE the
continuing-education check, so any input containing the dual-degree marker
(after uppercasing and stripping) maps to 'Dual Degree' even if it also
contains the continuing-education marker; an input containing the
continuing-education marker maps to 'CPE' only when it is non-empty and does
not contain the dual-degree marker. -/
theorem c8_school_order_amended (n : Str) :
    (containsSub (strip (upper n)) (pystr "DUAL") = true →
      DataLoader.standardize_school_name (some n) = pystr "Dual Degree")
    ∧ (strip (upper n) ≠ [] →
        containsSub (strip (upper n)) (pystr "DUAL") = false →
        containsSub (strip (upper n)) (pystr "CPE") = true →
        DataLoader.standardize_school_name (some n) = pystr "CPE") := by
  constructor
  · intro h
    simp [DataLoader.standardize_school_name, h]
  · intro h1 h2 h3
    simp [DataLoader.standardize_school_name, h1, h2, h3]

/-- C8 witness: instantiating the amended theorem at "DUAL CPE" (first part)
and "cpe division" (second part). -/
theorem c8_school_order_amended_witness :
    DataLoader.standardize_school_name (some (pystr "DUAL CPE")) = pystr "Dual Degree"
      ∧ DataLoader.standardize_school_name (some (pystr "cpe division")) = pystr "CPE" :=
  ⟨(c8_school_order_amended (pystr "DUAL CPE")).1 (by decide),
    (c8_school_order_amended (pystr "cpe division")).2 (by decide) (by decide) (by decide)⟩

/-- C4 counterexample: a generic-online row with the corporate flag set but a
BLANK corporate-cohort field is still classified 'Corporate' by both census
categorizers (no cohort condition exists in the code), and a generic-online
row with a blank corporate flag is classified 'Uncategorized' — not 'Retail' —
by the NTR categorizer `classify_student_category`, whose Retail rule requires
the flag to be exactly 'Non-Corporate'. -/
theorem c4_census_corporate_counterexample :
    (NTRCalc.classify_student_category corpBlankCohortRow = pystr "Corporate"
      ∧ DataLoader.categorize_census_row corpBlankCohortRow = pystr "Corporate"
      ∧ corpBlankCohortRow.corporateCohort = [])
    ∧ NTRCalc.classify_student_category onlineBlankFlagRow = pystr "Uncategorized" := by
  decide

/-- C4 (amended): once the earlier cascade rules are excluded, 'Corporate' is
assigned exactly when location is generic online and the corporate flag equals
'Corporate' (with beacon flag 0 in the NTR categorizer) — with no condition on
any cohort field; the loader's categorizer sends every remaining generic-online
row to 'Retail' regardless of the corporate flag, while the NTR categorizer's
'Retail' additionally requires the flag to be exactly 'Non-Corporate'; a row
matching no rule receives the visible 'Uncategorized' sentinel. -/
theorem c4_census_corporate_amended (r : CensusRow)
    (h1 : (NTRCalc.is_cpe_program r.program || NTRCalc.is_cpe_school r.school) = false)
    (h2 : ¬(r.degreeType = pystr "Non-Degree"
        ∧ (r.location = pystr "Online" ∨ r.location = pystr "Online Noodle")))
    (h3 : r.location ≠ pystr "Online Noodle")
    (h4 : ¬(r.beacon = 1))
    (h5 : strip r.degreeType ≠ pystr "Non-Degree")
    (h6 : strip r.location ≠ pystr "Online Noodle") :
    (NTRCalc.classify_student_category r = pystr "Corporate" ↔
      r.location = pystr "Online" ∧ r.corporate = pystr "Corporate" ∧ r.beacon = 0)
    ∧ (NTRCalc.classify_student_category r = pystr "Retail" ↔
      r.location = pystr "Online" ∧ r.corporate = pystr "Non-Corporate" ∧ r.beacon = 0)
    ∧ (r.location ≠ pystr "Online" →
      NTRCalc.classify_student_category r = pystr "Uncategorized")
    ∧ (DataLoader.categorize_census_row r = pystr "Corporate" ↔
      strip r.location = pystr "Online" ∧ strip r.corporate = pystr "Corporate")
    ∧ (strip r.location = pystr "Online" → strip r.corporate ≠ pystr "Corporate" →
      DataLoader.categorize_census_row r = pystr "Retail")
    ∧ (strip r.location ≠ pystr "Online" →
      DataLoader.categorize_census_row r = pystr "Uncategorized") := by
  have hntr : NTRCalc.classify_student_category r =
      if r.location = pystr "Online" ∧ r.corporate = pystr "Corporate" ∧ r.beacon = 0 then
        pystr "Corporate"
      else if r.location = pystr "Online" ∧ r.corporate = pystr "Non-Corporate" ∧ r.beacon = 0
      then pystr "Retail"
      else pystr "Uncategorized" := by
    simp only [NTRCalc.classify_student_category, h1, Bool.false_eq_true, if_false]
    rw [if_neg h2, if_neg h3, if_neg h4]
  have hloader : DataLoader.categorize_census_row r =
      if strip r.location = pystr "Online" ∧ strip r.corporate = pystr "Corporate" then
        pystr "Corporate"
      else if strip r.location = pystr "Online" then pystr "Retail"
      else pystr "Uncategorized" := by
    simp only [DataLoader.categorize_census_row]
    rw [if_neg h5, if_neg h6, if_neg h4]
  refine ⟨?_, ?_, ?_, ?_, ?_, ?_⟩
  · rw [hntr]
    split_ifs with hA hB
    · exact iff_of_true rfl hA
    · exact iff_of_false (by decide) hA
    · exact iff_of_false (by decide) hA
  · rw [hntr]
    split_ifs with hA hB
    · refine iff_of_false (by decide) ?_
      rintro ⟨_, hc2, _⟩
      exact absurd (hA.2.1.symm.trans hc2) (by decide)
    · exact iff_of_true rfl hB
    · exact iff_of_false (by decide) hB
  · intro hloc
    rw [hntr]
    split_ifs with hA hB
    · exact absurd hA.1 hloc
    · exact absurd hB.1 hloc
    · rfl
  · rw [hloader]
    split_ifs with hA hB
    · exact iff_of_true rfl hA
    · exact iff_of_false (by decide) hA
    · exact iff_of_false (by decide) hA
  · intro hloc hc
    rw [hloader]
    split_ifs with hA
    · exact absurd hA.2 hc
    · rfl
  · intro hloc
    rw [hloader]
    split_ifs with hA
    · exact absurd hA.1 hloc
    · rfl

/-- C4 witness: instantiating the amended theorem at a corporate-flagged
generic-online row with a blank cohort field and at an on-campus row. -/
theorem c4_census_corporate_amended_witness :
    NTRCalc.classify_student_category corpBlankCohortRow = pystr "Corporate"
      ∧ NTRCalc.classify_student_category campusRow = pystr "Uncategorized" :=
  ⟨(c4_census_corporate_amended corpBlankCohortRow (by decide) (by decide) (by decide)
      (by decide) (by decide) (by decide)).1.mpr (by decide),
    (c4_census_corporate_amended campusRow (by decide) (by decide) (by decide)
      (by decide) (by decide) (by decide)).2.2.1 (by decide)⟩

/-- C2: the application classifier is total — every row is assigned exactly
one of the seven categories (it is a function into this fixed list, never
null, never multiple) — and the cascade is evaluated top-to-bottom with the
first matching rule winning: for any row on which the four earlier rules fail
and whose channel tag satisfies both the rule-5 condition (blank or containing
the excluded-program marker 'EDD') and the rule-7 condition (containing the
partner-channel marker 'Noodle' with no exclusion flag), the result is
rule 5's 'Stevens Online (Retail)'. -/
theorem c2_classifier_cascade (row : DataLoader.AppRow) :
    DataLoader.reclassify_app_tags row ∈ DataLoader.applicationCategories
    ∧ (row.dataSource ≠ pystr "ASAP" →
       containsSub (strip (upper row.schoolApplied)) (pystr "CPE") = false →
       DataLoader.is_cpe_program row.program = false →
       ¬((row.schoolApplied = [] ∨ strip (upper row.schoolApplied) = []) ∧
           strip row.degreeInterest ≠ pystr "Dual Degree") →
       (row.appTags = [] ∨ containsSub row.appTags (pystr "EDD") = true) →
       containsSub row.appTags (pystr "Noodle") = true →
       (lower row.noodleException = [] ∨
           containsSub (lower row.noodleException) (pystr "exclude") = false) →
       DataLoader.reclassify_app_tags row = pystr "Stevens Online (Retail)") := by
  constructor
  · simp only [DataLoader.reclassify_app_tags]
    split_ifs <;> decide
  · intro h1 h2 h3 h4 h5 _h6 _h7
    simp only [DataLoader.reclassify_app_tags]
    rw [if_neg h1]
    simp only [h2, Bool.false_eq_true, if_false, h3]
    rw [if_neg h4, if_pos]
    rcases h5 with h5 | h5
    · exact Or.inl h5
    · exact Or.inr h5

/-- C2 witness: instantiating the theorem at a row whose tag 'EDD Noodle'
satisfies both rule 5 and rule 7. -/
theorem c2_classifier_cascade_witness :
    DataLoader.reclassify_app_tags eddNoodleRow ∈ DataLoader.applicationCategories
      ∧ DataLoader.reclassify_app_tags eddNoodleRow = pystr "Stevens Online (Retail)" :=
  ⟨(c2_classifier_cascade eddNoodleRow).1,
    (c2_classifier_cascade eddNoodleRow).2 (by decide) (by decide) (by decide) (by decide)
      (by decide) (by decide) (by decide)⟩

/-- C5 counterexample: duplicating the single row of a census table leaves the
`nunique`-based 'total' at 1 but doubles the 'new' status count from 1 to 2
(and doubles total credits) — so the New/Continuing/Returning status counts
reported by the census loader are raw row counts, not unique-student-ID
counts, and are NOT stable under row duplication. -/
theorem c5_census_dedup_counterexample :
    DataLoader.load_census_data (pystr "2026S") [newStatusRow]
        = some ⟨1, 1, 0, 0, 9⟩
      ∧ DataLoader.load_census_data (pystr "2026S") [newStatusRow, newStatusRow]
        = some ⟨1, 2, 0, 0, 18⟩ := by decide

/-- The census filter distributes over list append. -/
theorem censusFilter_append (sem : Str) (xs ys : List CensusRow) :
    DataLoader.censusFilter sem (xs ++ ys)
      = DataLoader.censusFilter sem xs ++ DataLoader.censusFilter sem ys := by
  simp [DataLoader.censusFilter, List.filter_append]

/-- Appending an element already present does not change the number of
distinct elements of a list. -/
theorem dedup_length_append_mem {α : Type} [DecidableEq α] {l : List α} {x : α}
    (hx : x ∈ l) : (l ++ [x]).dedup.length = l.dedup.length := by
  rw [← List.card_toFinset, ← List.card_toFinset, List.toFinset_append]
  congr 1
  rw [Finset.union_eq_left]
  simpa using hx

/-- C5 (amended): only the 'total' headcount produced by the census loader is
a count of unique student IDs; duplicating any row of the input census table
leaves 'total' unchanged (whereas the New/Continuing/Returning status counts
are raw row counts and do change, per the counterexample). -/
theorem c5_census_total_dedup (sem : Str) (rows : List CensusRow) (r : CensusRow)
    (hr : r ∈ rows) :
    (DataLoader.load_census_data sem (rows ++ [r])).map (fun s => s.total)
      = (DataLoader.load_census_data sem rows).map (fun s => s.total) := by
  have happ := censusFilter_append sem rows [r]
  have hcases : DataLoader.censusFilter sem [r] = []
      ∨ DataLoader.censusFilter sem [r] = [r] := by
    simp only [DataLoader.censusFilter, List.filter_cons, List.filter_nil]
    split_ifs <;> simp <;> tauto
  rcases hcases with h | h
  · rw [show rows ++ [r] = rows ++ [r] from rfl]
    simp [DataLoader.load_census_data, happ, h]
  · have hrmem : r ∈ DataLoader.censusFilter sem rows := by
      have hr1 : r ∈ DataLoader.censusFilter sem [r] := by rw [h]; exact List.mem_singleton_self r
      simp only [DataLoader.censusFilter, List.mem_filter] at hr1 ⊢
      exact ⟨⟨⟨hr, hr1.1.1.2⟩, hr1.1.2⟩, hr1.2⟩
    have hne : DataLoader.censusFilter sem rows ≠ [] := List.ne_nil_of_mem hrmem
    have hne2 : DataLoader.censusFilter sem rows ++ [r] ≠ [] := by simp
    have hid : r.studentId ∈ (DataLoader.censusFilter sem rows).map (fun q => q.studentId) :=
      List.mem_map_of_mem _ hrmem
    have hfuse : DataLoader.censusFilter sem (rows ++ [r])
        = DataLoader.censusFilter sem rows ++ [r] := by rw [happ, h]
    simp only [DataLoader.load_census_data, hfuse, if_neg hne, if_neg hne2, Option.map_some,
      List.map_append, List.map_cons, List.map_nil]
    rw [dedup_length_append_mem hid]
    simp

/-- C5 witness: duplicating the unique row of a one-row census leaves the
'total' headcount unchanged. -/
theorem c5_census_total_dedup_witness :
    newStatusRow ∈ [newStatusRow]
      ∧ (DataLoader.load_census_data (pystr "2026S")
            ([newStatusRow] ++ [newStatusRow])).map (fun s => s.total)
        = (DataLoader.load_census_data (pystr "2026S") [newStatusRow]).map (fun s => s.total) :=
  ⟨by decide, c5_census_total_dedup (pystr "2026S") [newStatusRow] newStatusRow (by decide)⟩

/-- `get_yoy_status` marks a row enrolled exactly when the cell is non-NA,
non-blank, and parses to a year in the valid window. -/
theorem get_yoy_status_eq (c : DataLoader.DateCell) :
    DataLoader.get_yoy_status c
      = if ¬ c.isNA ∧ strip c.raw ≠ []
            ∧ ∃ y ∈ DataLoader.valid_years, c.parsedYear = some y then
          pystr "yes"
        else pystr "no" := by
  rcases c with ⟨na, raw, py⟩
  simp only [DataLoader.get_yoy_status]
  rcases py with _ | y
  · split_ifs <;> simp_all
  · by_cases hna : na <;> by_cases hraw : strip raw = [] <;>
      by_cases hy : y ∈ DataLoader.valid_years <;>
      split_ifs <;> simp_all

/-- `toe_status` marks a row enrolled exactly when the cell is non-NA and the
label contains one of the valid years as a substring. -/
theorem toe_status_eq (c : DataLoader.TermCell) :
    DataLoader.toe_status c
      = if ¬ c.isNA
            ∧ ∃ y ∈ DataLoader.valid_years, containsSub c.raw (pystr (toString y)) = true then
          pystr "yes"
        else pystr "no" := by
  rcases c with ⟨na, raw⟩
  simp only [DataLoader.toe_status, List.any_eq_true]

/-- C6: for every row of a population table — if the Date-of-Enrollment column
is present, the row is marked enrolled iff its value is non-blank and parses
to a date whose year lies in the valid window {2024, 2025, 2026} (blank or
unparseable values are marked not enrolled; the function is total, so no
exception is ever raised); else if the Term-of-Enrollment column is present,
the row is marked enrolled iff the label contains one of the valid years as a
substring; else every row is marked not enrolled and the loud warning is
surfaced (the warning flag is raised exactly in that case). -/
theorem c6_yoy_status_derivation (hasDoe hasToe : Bool) (rows : List DataLoader.PopRow) :
    DataLoader.derive_yoy_status_from_enrollment_date hasDoe hasToe rows
      = (rows.map (fun r =>
            if hasDoe then
              if ¬ r.doe.isNA ∧ strip r.doe.raw ≠ []
                  ∧ ∃ y ∈ DataLoader.valid_years, r.doe.parsedYear = some y then
                pystr "yes"
              else pystr "no"
            else if hasToe then
              if ¬ r.toe.isNA
                  ∧ ∃ y ∈ DataLoader.valid_years, containsSub r.toe.raw (pystr (toString y)) = true
              then pystr "yes"
              else pystr "no"
            else pystr "no"),
          !hasDoe && !hasToe) := by
  cases hasDoe <;> cases hasToe <;>
    simp only [DataLoader.derive_yoy_status_from_enrollment_date, Bool.false_eq_true,
      Bool.true_eq_false, if_true, if_false, Bool.not_false, Bool.not_true, Bool.and_self,
      Bool.false_and, Bool.and_false, Bool.true_and, Bool.and_true, ite_true, ite_false] <;>
    exact congrArg (fun l => (l, _)) (List.map_congr_left (fun r _ => by
      first
        | exact get_yoy_status_eq r.doe
        | exact toe_status_eq r.toe))

/-- C9: the ASAP (Secondary-population) branch of the transformer
unconditionally overwrites the standardized degree type with 'Masters' and the
standardized school with 'SES' — every transformed Secondary row carries
exactly these values (and Data Source 'ASAP'), whatever the raw
degree-of-interest and school fields contained, so Secondary rows can never
appear under any other school or degree-type group. -/
theorem c9_asap_overrides (rows : List DataLoader.RawRow) :
    (DataLoader.transform_application_data_asap rows).all
      (fun t => t.degreeType == pystr "Masters" && t.school == pystr "SES"
        && t.dataSource == pystr "ASAP") = true := by
  simp only [DataLoader.transform_application_data_asap, List.all_eq_true]
  intro t ht
  simp only [List.mem_map, List.mem_filter] at ht
  obtain ⟨u, ⟨hu, _⟩, rfl⟩ := ht
  obtain ⟨r, _, rfl⟩ := hu
  simp [DataLoader.transformRowAsap]

/-- The NTR filter on a cons: the row is kept exactly when it passes the
semester and valid-category/valid-degree predicates. -/
theorem ntrFilter_cons (sem : Str) (r : CensusRow) (rows : List CensusRow) :
    NTRCalc.ntrFilter sem (r :: rows)
      = if (r.semester == sem)
            && (NTRCalc.valid_categories.contains (NTRCalc.classify_student_category r)
              && NTRCalc.valid_degrees.contains r.degreeType) then
          r :: NTRCalc.ntrFilter sem rows
        else NTRCalc.ntrFilter sem rows := by
  simp only [NTRCalc.ntrFilter, List.filter_cons]
  by_cases h1 : (r.semester == sem) = true
  · simp only [h1, if_true, List.filter_cons]
    by_cases h2 : (NTRCalc.valid_categories.contains (NTRCalc.classify_student_category r)
        && NTRCalc.valid_degrees.contains r.degreeType) = true
    · simp [h1, h2]
    · simp [h1, h2]
  · simp [h1]

/-- A row whose student type differs from the pivot column `st` does not
change that credits-pivot cell. -/
theorem groupCredits_cons_skip (df : List CensusRow) (k : Str × Str) (st : Str)
    (r : CensusRow) (h : (NTRCalc.classify_student_type r == st) = false) :
    NTRCalc.groupCredits (r :: df) k st = NTRCalc.groupCredits df k st := by
  simp [NTRCalc.groupCredits, List.filter_cons, h]

/-- A row whose student type differs from the pivot column `st` does not
change that students-pivot cell. -/
theorem groupStudents_cons_skip (df : List CensusRow) (k : Str × Str) (st : Str)
    (r : CensusRow) (h : (NTRCalc.classify_student_type r == st) = false) :
    NTRCalc.groupStudents (r :: df) k st = NTRCalc.groupStudents df k st := by
  simp [NTRCalc.groupStudents, List.filter_cons, h]

/-- Prepending a row with student type 'Uncategorized' changes no group's
`CategoryNTR` record: only the 'New' and 'Current' pivot cells are read. -/
theorem categoryNTROf_cons_uncat (df : List CensusRow) (k : Str × Str) (r : CensusRow)
    (h : NTRCalc.classify_student_type r = pystr "Uncategorized") :
    NTRCalc.categoryNTROf (r :: df) k = NTRCalc.categoryNTROf df k := by
  have hN : (NTRCalc.classify_student_type r == pystr "New") = false := by
    rw [h]; decide
  have hC : (NTRCalc.classify_student_type r == pystr "Current") = false := by
    rw [h]; decide
  simp only [NTRCalc.categoryNTROf, groupCredits_cons_skip df k _ r hN,
    groupCredits_cons_skip df k _ r hC, groupStudents_cons_skip df k _ r hN,
    groupStudents_cons_skip df k _ r hC]

/-- A (category, degree type) key under which no row of `df` falls yields an
all-zero group: its pivot cells are 0, so its NTR contribution is 0. -/
theorem categoryNTROf_fresh_total_ntr (df : List CensusRow) (k : Str × Str)
    (hk : k ∉ df.map NTRCalc.groupKey) :
    (NTRCalc.categoryNTROf df k).total_ntr = 0 := by
  have hfil : ∀ st : Str,
      df.filter (fun q => NTRCalc.groupKey q == k
        && NTRCalc.classify_student_type q == st) = [] := by
    intro st
    refine List.filter_eq_nil_iff.mpr (fun q hq => ?_)
    intro hcontra
    rcases Bool.and_eq_true_iff.mp hcontra with ⟨hkey, _⟩
    exact hk (List.mem_map.mpr ⟨q, hq, beq_iff_eq.mp hkey⟩)
  simp [NTRCalc.categoryNTROf, NTRCalc.groupCredits, hfil]

/-- C10: any census row whose student status is outside
{New, Continuing, Returning} receives the 'Uncategorized' student-type
sentinel (never 'New' or 'Current'), and such a row contributes exactly 0 to
the NTR totals — prepending it to any census leaves the summed NTR of the
breakdown unchanged, because only the 'New' and 'Current' pivot columns are
ever multiplied by a rate (the reported summary total is that same sum). -/
theorem c10_uncategorized_zero_ntr :
    (∀ r : CensusRow,
        r.status ∉ [pystr "New", pystr "Continuing", pystr "Returning"] →
        NTRCalc.classify_student_type r = pystr "Uncategorized")
    ∧ (∀ (sem : Str) (rows : List CensusRow) (r : CensusRow),
        NTRCalc.classify_student_type r = pystr "Uncategorized" →
        ((NTRCalc.calculate_ntr_breakdown sem (r :: rows)).map (fun g => g.total_ntr)).sum
          = ((NTRCalc.calculate_ntr_breakdown sem rows).map (fun g => g.total_ntr)).sum)
    ∧ (∀ (goal : ℤ) (b : List NTRCalc.CategoryNTR),
        (NTRCalc.summaryOf goal b).total_ntr = (b.map (fun g => g.total_ntr)).sum) := by
  refine ⟨?_, ?_, fun goal b => rfl⟩
  · intro r h
    simp only [List.mem_cons, List.not_mem_nil, or_false] at h
    push_neg at h
    obtain ⟨hN, hC, hR⟩ := h
    simp [NTRCalc.classify_student_type, hN, hC, hR]
  · intro sem rows r h
    simp only [NTRCalc.calculate_ntr_breakdown]
    rw [ntrFilter_cons]
    split_ifs with hP
    · by_cases hk : NTRCalc.groupKey r ∈ (NTRCalc.ntrFilter sem rows).map NTRCalc.groupKey
      · rw [show NTRCalc.groupKeys (r :: NTRCalc.ntrFilter sem rows)
              = NTRCalc.groupKeys (NTRCalc.ntrFilter sem rows) from ?_]
        · exact congrArg (fun l => (l.map (fun g => g.total_ntr)).sum)
            (List.map_congr_left (fun k _ => categoryNTROf_cons_uncat _ k r h))
        · simp only [NTRCalc.groupKeys, List.map_cons]
          exact List.dedup_cons_of_mem hk
      · rw [show NTRCalc.groupKeys (r :: NTRCalc.ntrFilter sem rows)
              = NTRCalc.groupKey r :: NTRCalc.groupKeys (NTRCalc.ntrFilter sem rows) from ?_]
        · simp only [List.map_cons, List.sum_cons]
          rw [categoryNTROf_cons_uncat _ _ r h, categoryNTROf_fresh_total_ntr _ _ hk,
            zero_add]
          exact congrArg (fun l => (l.map (fun g => g.total_ntr)).sum)
            (List.map_congr_left (fun k _ => categoryNTROf_cons_uncat _ k r h))
        · simp only [NTRCalc.groupKeys, List.map_cons]
          exact List.dedup_cons_of_not_mem hk
    · rfl

/-- C10 witness: a row with status 'Withdrawn' is 'Uncategorized', and
prepending it to a census leaves the summed breakdown NTR unchanged. -/
theorem c10_uncategorized_zero_ntr_witness :
    NTRCalc.classify_student_type withdrawnRow = pystr "Uncategorized"
      ∧ ((NTRCalc.calculate_ntr_breakdown (pystr "2026S")
            (withdrawnRow :: [newStatusRow])).map (fun g => g.total_ntr)).sum
        = ((NTRCalc.calculate_ntr_breakdown (pystr "2026S")
            [newStatusRow]).map (fun g => g.total_ntr)).sum :=
  ⟨c10_uncategorized_zero_ntr.1 withdrawnRow (by decide),
    c10_uncategorized_zero_ntr.2.1 (pystr "2026S") [newStatusRow] withdrawnRow (by decide)⟩

/-- C3 counterexample: on a census containing one student in the unmapped
combination (Beacon, Graduate Certificate, New), the spec's required gap list
is non-empty, yet the entire output of `calculate_ntr_from_census` is the
displayed summary/breakdown pair: the combination's credits contribute 0
revenue, and the combination surfaces only as an ordinary breakdown row with
zero cost-per-credit — no gap list of unmapped combinations is returned to
callers. -/
theorem c3_rate_gap_counterexample :
    NTRCalc.specGapList (pystr "2026S") gapRows
        = [(pystr "Beacon", pystr "Graduate Certificate", pystr "New")]
      ∧ (NTRCalc.calculate_ntr_from_census (pystr "2026S")
            NTRCalc.DEFAULT_NTR_GOAL gapRows).map (fun p => (p.1.total_ntr, p.2))
        = some (0, [gapGroupRecord]) := by decide

/-- The rate lookup falls back to 0 when both the exact key and the
prefix-stripped key are absent from the rate table. -/
theorem get_cpc_rate_eq_zero (category degree_type student_type : Str)
    (h1 : NTRCalc.ratesLookup (category, degree_type, student_type) = none)
    (h2 : NTRCalc.ratesLookup
        (NTRCalc.short_category_of category, degree_type, student_type) = none) :
    NTRCalc.get_cpc_rate category degree_type student_type = 0 := by
  simp only [NTRCalc.get_cpc_rate, h1, h2]
  split_ifs <;> rfl

/-- C3 (amended): a (category, degreeType, studentType) combination observed
in census data but absent from the rate table (also after the
'Stevens Online' prefix fallback) contributes exactly 0 revenue for its
group's credits, and the group is not silently dropped — it still appears as
a row of the returned category breakdown (with zero cost-per-credit); however
no separate 'gap' list of unmapped combinations is reported to callers (per
the counterexample), so callers must detect zero-rate rows themselves. -/
theorem c3_rate_gap_amended (sem : Str) (rows : List CensusRow) :
    (∀ g ∈ NTRCalc.calculate_ntr_breakdown sem rows,
        NTRCalc.ratesLookup (g.category, g.degree_type, pystr "New") = none →
        NTRCalc.ratesLookup
            (NTRCalc.short_category_of g.category, g.degree_type, pystr "New") = none →
        NTRCalc.ratesLookup (g.category, g.degree_type, pystr "Current") = none →
        NTRCalc.ratesLookup
            (NTRCalc.short_category_of g.category, g.degree_type, pystr "Current") = none →
        g.cpc_new = 0 ∧ g.cpc_current = 0 ∧ g.ntr_new = 0 ∧ g.ntr_current = 0
          ∧ g.total_ntr = 0)
    ∧ (∀ r ∈ NTRCalc.ntrFilter sem rows,
        (NTRCalc.classify_student_category r, r.degreeType)
          ∈ (NTRCalc.calculate_ntr_breakdown sem rows).map
              (fun g => (g.category, g.degree_type))) := by
  constructor
  · intro g hg h1 h2 h3 h4
    obtain ⟨k, _, rfl⟩ := List.mem_map.mp hg
    have hcnew : NTRCalc.get_cpc_rate k.1 k.2 (pystr "New") = 0 :=
      get_cpc_rate_eq_zero _ _ _ h1 h2
    have hccur : NTRCalc.get_cpc_rate k.1 k.2 (pystr "Current") = 0 :=
      get_cpc_rate_eq_zero _ _ _ h3 h4
    refine ⟨?_, ?_, ?_, ?_, ?_⟩ <;> simp only [NTRCalc.categoryNTROf]
    · exact hcnew
    · exact hccur
    · rw [hcnew, mul_zero]
    · rw [hccur, mul_zero]
    · rw [hcnew, hccur, mul_zero, mul_zero, add_zero]
  · intro r hr
    simp only [NTRCalc.calculate_ntr_breakdown, List.map_map]
    have hcomp : ((fun g : NTRCalc.CategoryNTR => (g.category, g.degree_type))
          ∘ NTRCalc.categoryNTROf (NTRCalc.ntrFilter sem rows)) = fun k => k := by
      funext k
      simp [NTRCalc.categoryNTROf]
    rw [hcomp, List.map_id']
    simp only [NTRCalc.groupKeys, List.mem_dedup]
    exact List.mem_map_of_mem _ hr

/-- C3 witness: the unmapped (Beacon, Graduate Certificate) group appears in
the breakdown for `gapRows` with a total NTR of exactly 0, and its key is not
dropped from the breakdown's key list. -/
theorem c3_rate_gap_amended_witness :
    (gapGroupRecord ∈ NTRCalc.calculate_ntr_breakdown (pystr "2026S") gapRows
        ∧ gapGroupRecord.total_ntr = 0)
      ∧ (NTRCalc.classify_student_category beaconCertRow, beaconCertRow.degreeType)
        ∈ (NTRCalc.calculate_ntr_breakdown (pystr "2026S") gapRows).map
            (fun g => (g.category, g.degree_type)) :=
  ⟨⟨by decide,
    ((c3_rate_gap_amended (pystr "2026S") gapRows).1 gapGroupRecord (by decide)
        (by decide) (by decide) (by decide) (by decide)).2.2.2.2⟩,
    (c3_rate_gap_amended (pystr "2026S") gapRows).2 beaconCertRow (by decide)⟩

/-- `rstrip` gives the empty string exactly on all-whitespace input. -/
theorem rstrip_eq_nil_iff {l : Str} : rstrip l = [] ↔ ∀ c ∈ l, pyIsSpace c = true := by
  simp [rstrip, List.dropWhile_eq_nil_iff]

/-- `strip` gives the empty string exactly on all-whitespace input. -/
theorem strip_eq_nil_iff {l : Str} : strip l = [] ↔ ∀ c ∈ l, pyIsSpace c = true := by
  rw [strip, rstrip_eq_nil_iff]
  constructor
  · intro h c hc
    rw [← List.takeWhile_append_dropWhile (p := pyIsSpace) (l := l)] at hc
    rcases List.mem_append.mp hc with h1 | h2
    · exact List.mem_takeWhile_imp h1
    · exact h c h2
  · intro h c hc
    exact h c ((List.dropWhile_sublist pyIsSpace).subset hc)

/-- Each replacement pass either leaves the string unchanged or embeds the
replacement text in the output. -/
theorem replaceSubAux_eq_or_embeds (pat repl : Str) :
    ∀ (fuel : Nat) (l : Str),
      replaceSubAux pat repl fuel l = l
        ∨ ∃ pre post : Str, replaceSubAux pat repl fuel l = pre ++ repl ++ post := by
  intro fuel
  induction fuel with
  | zero => intro l; exact Or.inl rfl
  | succ n ih =>
    intro l
    cases l with
    | nil => exact Or.inl rfl
    | cons c cs =>
      by_cases h : pat ≠ [] ∧ pat.isPrefixOf (c :: cs)
      · refine Or.inr ⟨[], replaceSubAux pat repl n (cs.drop (pat.length - 1)), ?_⟩
        simp only [replaceSubAux, if_pos h, List.nil_append]
      · rcases ih cs with h1 | ⟨pre, post, h2⟩
        · refine Or.inl ?_
          simp only [replaceSubAux, if_neg h]
          rw [h1]
        · refine Or.inr ⟨c :: pre, post, ?_⟩
          simp only [replaceSubAux, if_neg h]
          rw [h2]
          simp

/-- A replacement pass whose pattern starts with a non-whitespace character
leaves an all-whitespace string unchanged. -/
theorem replaceSubAux_all_space (p : Char) (pt repl : Str) (hp : pyIsSpace p = false) :
    ∀ (fuel : Nat) (l : Str), (∀ c ∈ l, pyIsSpace c = true) →
      replaceSubAux (p :: pt) repl fuel l = l := by
  intro fuel
  induction fuel with
  | zero => intro l _; rfl
  | succ n ih =>
    intro l hl
    cases l with
    | nil => rfl
    | cons c cs =>
      have hc : pyIsSpace c = true := hl c (List.mem_cons_self c cs)
      have hpc : p ≠ c := by
        rintro rfl
        rw [hc] at hp
        exact Bool.true_eq_false.mp hp
      have hpre : ((p :: pt).isPrefixOf (c :: cs)) = false := by
        simp only [List.isPrefixOf, Bool.and_eq_false_iff]
        exact Or.inl (beq_eq_false_iff_ne.mpr hpc)
      have hcond : ¬((p :: pt) ≠ [] ∧ (p :: pt).isPrefixOf (c :: cs)) := by
        rintro ⟨_, h2⟩
        rw [hpre] at h2
        exact Bool.false_ne_true h2
      simp only [replaceSubAux, if_neg hcond]
      rw [ih cs (fun d hd => hl d (List.mem_cons_of_mem c hd))]

/-- A replacement pass whose replacement text contains a non-whitespace
character preserves the presence of a non-whitespace character. -/
theorem replaceSubAux_preserves_nonspace (pat repl : Str)
    (hrepl : ∃ d ∈ repl, pyIsSpace d = false) :
    ∀ (fuel : Nat) (l : Str), (∃ c ∈ l, pyIsSpace c = false) →
      ∃ c ∈ replaceSubAux pat repl fuel l, pyIsSpace c = false := by
  intro fuel
  induction fuel with
  | zero => intro l hl; exact hl
  | succ n ih =>
    intro l hl
    cases l with
    | nil =>
      obtain ⟨c, hc, _⟩ := hl
      exact absurd hc (List.not_mem_nil c)
    | cons c cs =>
      by_cases h : pat ≠ [] ∧ pat.isPrefixOf (c :: cs)
      · obtain ⟨d, hd, hdns⟩ := hrepl
        refine ⟨d, ?_, hdns⟩
        simp only [replaceSubAux, if_pos h]
        exact List.mem_append_left _ hd
      · obtain ⟨e, he, hens⟩ := hl
        rcases List.mem_cons.mp he with rfl | hecs
        · refine ⟨e, ?_, hens⟩
          simp only [replaceSubAux, if_neg h]
          exact List.mem_cons_self e _
        · obtain ⟨f, hf, hfns⟩ := ih cs ⟨e, hecs, hens⟩
          refine ⟨f, ?_, hfns⟩
          simp only [replaceSubAux, if_neg h, List.mem_cons]
          exact Or.inr hf

/-- The two `replace` calls in `_normalize_asap_decision` do not change
whether a string is blank (empty after stripping): both patterns start with a
non-whitespace character and the replacement text contains one. -/
theorem normalize_replaces_strip_empty_iff (l : Str) :
    strip (replaceSub (pystr "asap_approved") (pystr "asap approved")
        (replaceSub (pystr "asap approved") (pystr "asap approved") l)) = []
      ↔ strip l = [] := by
  rw [strip_eq_nil_iff, strip_eq_nil_iff]
  constructor
  · intro h
    by_contra hl
    push_neg at hl
    obtain ⟨c, hc, hcns⟩ := hl
    have h1 : ∃ c ∈ replaceSub (pystr "asap approved") (pystr "asap approved") l,
        pyIsSpace c = false :=
      replaceSubAux_preserves_nonspace _ _ ⟨'a', by decide, by decide⟩ _ l
        ⟨c, hc, Bool.eq_false_iff.mpr hcns⟩
    have h2 : ∃ c ∈ replaceSub (pystr "asap_approved") (pystr "asap approved")
        (replaceSub (pystr "asap approved") (pystr "asap approved") l),
        pyIsSpace c = false :=
      replaceSubAux_preserves_nonspace _ _ ⟨'a', by decide, by decide⟩ _ _ h1
    obtain ⟨d, hd, hdns⟩ := h2
    rw [h d hd] at hdns
    exact Bool.true_eq_false.mp hdns
  · intro h
    have e1 : replaceSub (pystr "asap approved") (pystr "asap approved") l = l :=
      replaceSubAux_all_space 'a' _ _ (by decide) _ l h
    rw [e1]
    have e2 : replaceSub (pystr "asap_approved") (pystr "asap approved") l = l :=
      replaceSubAux_all_space 'a' _ _ (by decide) _ l h
    rw [e2]
    exact h

/-- The ASAP submitted-application flag holds exactly when the decision value
is non-blank after stripping, case-folding, and leading-dash removal: the
`replace` normalizations never change blankness. -/
theorem asap_flags_submit_iff (raw : Str) :
    (DataLoader.asap_flags raw).1 = true ↔
      strip (if startsWithSub (lower (strip raw)) (pystr "-") then
          strip ((lower (strip raw)).drop 1)
        else lower (strip raw)) ≠ [] := by
  simp only [DataLoader.asap_flags, DataLoader.normalize_asap_decision]
  rw [decide_eq_true_iff]
  rw [gt_iff_lt, List.length_pos]
  exact not_congr (normalize_replaces_strip_empty_iff _)

/-- A transformed ASAP row is counted as an application exactly when its
decision value is non-blank after stripping, case-folding and leading-dash
removal. -/
theorem transformRowAsap_isApplication (season : Str) (r : DataLoader.RawRow) :
    ((DataLoader.transformRowAsap season r).isApplication == 1)
      = decide (strip (if startsWithSub (lower (strip r.decisionLastName)) (pystr "-") then
            strip ((lower (strip r.decisionLastName)).drop 1)
          else lower (strip r.decisionLastName)) ≠ []) := by
  have h := asap_flags_submit_iff r.decisionLastName
  cases hb : (DataLoader.asap_flags r.decisionLastName).1 with
  | true =>
    rw [hb] at h
    have hP := h.mp rfl
    rw [List.drop_one] at hP
    simp [DataLoader.transformRowAsap, hb, hP]
  | false =>
    rw [hb] at h
    have hP := fun hp => Bool.false_ne_true (h.mpr hp)
    rw [List.drop_one] at hP
    simp only [DataLoader.transformRowAsap, hb, Bool.false_eq_true, if_false]
    simp [not_not.mp hP]

/-- C7: a Secondary (ASAP) population row counts as an application iff its
decision field is non-blank after trimming and leading-dash stripping (the
case-folding applied first cannot affect blankness), and rows with a blank
decision field are filtered out of the transformed table before any metric
computation — every surviving row has `Is Application = 1`, and the funnel
metrics are computed from the surviving rows alone.  In the concrete
scenario of five Secondary rows of which two have a blank decision field,
exactly 3 rows survive and those 3 alone feed the application, admit and
offer-accepted counts (3 applications, 2 admits, 1 offer accepted). -/
theorem c7_secondary_blank_decision_filter (rows : List DataLoader.RawRow) :
    (DataLoader.transform_application_data_asap rows).length
        = (rows.filter (fun r =>
            decide (strip (if startsWithSub (lower (strip r.decisionLastName)) (pystr "-") then
                strip ((lower (strip r.decisionLastName)).drop 1)
              else lower (strip r.decisionLastName)) ≠ []))).length
    ∧ (DataLoader.transform_application_data_asap rows).all
        (fun t => t.isApplication == 1) = true
    ∧ ((DataLoader.transform_application_data_asap asapScenarioRows).length = 3
        ∧ (Analytics.calculate_funnel_metrics
            (DataLoader.transform_application_data_asap asapScenarioRows) 2026).applications = 3
        ∧ (Analytics.calculate_funnel_metrics
            (DataLoader.transform_application_data_asap asapScenarioRows) 2026).admits = 2
        ∧ (Analytics.calculate_funnel_metrics
            (DataLoader.transform_application_data_asap asapScenarioRows) 2026).offers_accepted
          = 1) := by
  refine ⟨?_, ?_, by decide⟩
  · simp only [DataLoader.transform_application_data_asap]
    rw [List.length_map, List.filter_map, List.length_map]
    by_cases hall : (rows.all (fun r => r.schoolApplied == ([] : Str))) = true
    · simp only [DataLoader.asapOverrideSchoolApplied, hall, if_true]
      rw [List.filter_map, List.length_map]
      refine congrArg List.length (List.filter_congr ?_)
      intro r _
      simp only [Function.comp]
      exact transformRowAsap_isApplication _ _
    · simp only [DataLoader.asapOverrideSchoolApplied, hall, Bool.false_eq_true, if_false]
      refine congrArg List.length (List.filter_congr ?_)
      intro r _
      simp only [Function.comp]
      exact transformRowAsap_isApplication _ _
  · simp only [DataLoader.transform_application_data_asap, List.all_eq_true]
    intro t ht
    simp only [List.mem_map, List.mem_filter] at ht
    obtain ⟨u, ⟨_, hq⟩, rfl⟩ := ht
    exact hq
